import Mathlib

/-!
Shallow embedding of the FlowMentor backend workflows
(`src/modules/flowmentor-api/src/backend/workflows/`) and of the durable
workflow engine's client facade they rely on.

Each Temporal workflow `run` method is embedded as a pure Lean function.
Activity calls are resolved by an explicit environment: every call site
reads an `ActOutcome` that is either the value returned by the activity
(in the source all activities catch their own exceptions and return a
plain value) or a terminal failure (retries exhausted, e.g. repeated
start-to-close timeout), which `await workflow.execute_activity` raises
into the workflow, failing it when uncaught.  Signal waits with timeout
(`workflow.wait_condition(..., timeout=...)`) are resolved by the
environment as the signals delivered inside the wait window.  Workflows
also emit a trace of the activity invocations and timer waits they
perform, in order.
-/

/-- Outcome of one `execute_activity` call: either the activity completed
and returned a value, or it failed terminally after its retries. -/
inductive ActOutcome (α : Type) where
  | ok (a : α)
  | failure
deriving DecidableEq

/-- The only failure a workflow program in this repository can hit:
an awaited activity failed terminally, which fails the workflow. -/
inductive WfFailure where
  | activityFailed
deriving DecidableEq

/-- `await workflow.execute_activity(...)`: returns the activity's value
or raises (propagates the terminal failure into the workflow). -/
def execAct {α : Type} : ActOutcome α → Except WfFailure α
  | .ok a => .ok a
  | .failure => .error .activityFailed

/-! ### Python string comparison helpers

Python compares strings lexicographically by code point.  `max(a, b)`
returns `b` only when `a < b`; `min(a, b)` returns `b` only when
`b < a`. -/

def pyCharsLt : List Char → List Char → Bool
  | [], [] => false
  | [], _ :: _ => true
  | _ :: _, [] => false
  | c1 :: r1, c2 :: r2 =>
    if c1.toNat < c2.toNat then true
    else if c2.toNat < c1.toNat then false
    else pyCharsLt r1 r2

def pyStrLt (a b : String) : Bool := pyCharsLt a.data b.data

def pyStrLe (a b : String) : Bool := pyStrLt a b || a == b

def pyStrMax (a b : String) : String := if pyStrLt a b then b else a

def pyStrMin (a b : String) : String := if pyStrLt b a then b else a

/-! ## MeetingScheduler (`workflows/meeting_scheduler.py`) -/

/-- `TimeWindow` pydantic model. -/
structure TimeWindow where
  start_time : String
  end_time : String
  date : String
deriving DecidableEq

/-- `MeetingSchedulerInput` pydantic model. -/
structure MeetingSchedulerInput where
  meeting_id : String
  user1_id : String
  user2_id : String
  user1_time_windows : List TimeWindow
  user2_time_windows : List TimeWindow
  meeting_duration_minutes : Int
  meeting_title : String
  meeting_description : Option String
deriving DecidableEq

/-- `ScheduledMeeting` pydantic model (`confidence_score` is the float
`0.95`, modelled exactly as a rational). -/
structure ScheduledMeeting where
  meeting_id : String
  scheduled_time : TimeWindow
  user1_id : String
  user2_id : String
  title : String
  description : Option String
  confidence_score : ℚ
deriving DecidableEq

/-- `MeetingSchedulerResponse` pydantic model. -/
structure MeetingSchedulerResponse where
  success : Bool
  scheduled_meeting : Option ScheduledMeeting
  message : String
deriving DecidableEq

/-- Inner loop of `find_optimal_slot_activity`: scan `user2_windows` for
the first window overlapping `w1` (same date, `start1 <= end2 and
start2 <= end1` on the ISO strings), returning the overlap
`[max(start1, start2), min(end1, end2)]` on `w1.date`. -/
def findInner (w1 : TimeWindow) : List TimeWindow → Option TimeWindow
  | [] => none
  | w2 :: rest =>
    if w1.date == w2.date then
      if pyStrLe w1.start_time w2.end_time && pyStrLe w2.start_time w1.end_time then
        some ⟨pyStrMax w1.start_time w2.start_time,
              pyStrMin w1.end_time w2.end_time,
              w1.date⟩
      else findInner w1 rest
    else findInner w1 rest

/-- `find_optimal_slot_activity`: nested loops, outer over
`user1_windows`, inner over `user2_windows`; first overlap wins.  The
`duration_minutes` argument is accepted and ignored, as in the source. -/
def find_optimal_slot_activity
    (user1_windows user2_windows : List TimeWindow) (duration_minutes : Int) :
    Option TimeWindow :=
  match user1_windows with
  | [] => none
  | w1 :: rest =>
    match findInner w1 user2_windows with
    | some slot => some slot
    | none => find_optimal_slot_activity rest user2_windows duration_minutes

/-- Overlap test of the source, as a predicate on a pair of windows
(same date and `start1 <= end2 and start2 <= end1`). -/
def overlapB (w1 w2 : TimeWindow) : Bool :=
  w1.date == w2.date &&
    (pyStrLe w1.start_time w2.end_time && pyStrLe w2.start_time w1.end_time)

/-- The slot built from an overlapping pair:
`[max(start1, start2), min(end1, end2)]` on the shared date. -/
def overlapSlot (w1 w2 : TimeWindow) : TimeWindow :=
  ⟨pyStrMax w1.start_time w2.start_time, pyStrMin w1.end_time w2.end_time, w1.date⟩

/-- The first pair of windows, in iteration order (outer loop over
user1's windows, inner loop over user2's windows), that overlaps. -/
def firstOverlapPair (ws1 ws2 : List TimeWindow) :
    Option (TimeWindow × TimeWindow) :=
  (ws1.flatMap fun w1 => ws2.map fun w2 => (w1, w2)).find? fun p => overlapB p.1 p.2

theorem findInner_eq (w1 : TimeWindow) : ∀ ws2 : List TimeWindow,
    findInner w1 ws2 = (ws2.find? fun w2 => overlapB w1 w2).map fun w2 => overlapSlot w1 w2
  | [] => rfl
  | w2 :: rest => by
    simp only [findInner, List.find?]
    cases hd : w1.date == w2.date with
    | false =>
      have : overlapB w1 w2 = false := by simp [overlapB, hd]
      simp [this, findInner_eq w1 rest]
    | true =>
      cases ht : pyStrLe w1.start_time w2.end_time && pyStrLe w2.start_time w1.end_time with
      | false =>
        have : overlapB w1 w2 = false := by simp [overlapB, hd, ht]
        simp [this, findInner_eq w1 rest]
      | true =>
        have : overlapB w1 w2 = true := by simp [overlapB, hd, ht]
        simp [this, overlapSlot]

theorem find_pairMap_eq (w1 : TimeWindow) : ∀ ws2 : List TimeWindow,
    ((ws2.map fun w2 => (w1, w2)).find? fun p => overlapB p.1 p.2) =
      (ws2.find? fun w2 => overlapB w1 w2).map fun w2 => (w1, w2)
  | [] => rfl
  | w2 :: rest => by
    simp only [List.map, List.find?]
    cases h : overlapB w1 w2 with
    | false => simpa [h] using find_pairMap_eq w1 rest
    | true => simp [h]

theorem find_append_first {α : Type} (p : α → Bool) :
    ∀ (l1 l2 : List α), (l1 ++ l2).find? p =
      match l1.find? p with
      | some a => some a
      | none => l2.find? p
  | [], _ => rfl
  | a :: l1, l2 => by
    simp only [List.cons_append, List.find?]
    cases h : p a with
    | false => simpa [h] using find_append_first p l1 l2
    | true => simp [h]

theorem find_optimal_slot_eq (d : Int) : ∀ ws1 ws2 : List TimeWindow,
    find_optimal_slot_activity ws1 ws2 d =
      (firstOverlapPair ws1 ws2).map fun p => overlapSlot p.1 p.2
  | [], ws2 => rfl
  | w1 :: rest, ws2 => by
    show (match findInner w1 ws2 with
          | some slot => some slot
          | none => find_optimal_slot_activity rest ws2 d) = _
    rw [findInner_eq]
    unfold firstOverlapPair
    rw [List.flatMap_cons, find_append_first, find_pairMap_eq]
    cases h : ws2.find? fun w2 => overlapB w1 w2 with
    | none => exact find_optimal_slot_eq d rest ws2
    | some w2 => rfl

example :
    find_optimal_slot_activity
      [⟨"09:00", "10:00", "2024-01-01"⟩] [⟨"09:30", "10:30", "2024-01-01"⟩] 60 =
      some ⟨"09:30", "10:00", "2024-01-01"⟩ := by decide

/-- One step of `MeetingSchedulerWorkflow.run`, recorded in the trace. -/
inductive MSEvent where
  | findSlotCall
  | updateScheduleCall (user_id : String)
  | sendMeetingNotificationCall (user_id : String)
deriving DecidableEq

/-- Environment resolving the five activity call sites of
`MeetingSchedulerWorkflow.run`, in program order. -/
structure MSEnv where
  findSlot : ActOutcome (Option TimeWindow)
  updateUser1 : ActOutcome Bool
  updateUser2 : ActOutcome Bool
  notifyUser1 : ActOutcome Bool
  notifyUser2 : ActOutcome Bool
deriving DecidableEq

/-- `MeetingSchedulerWorkflow.run`: find a slot; if none, return
`success=False` with no meeting; else build the `ScheduledMeeting`,
update both users' schedules (returning `success=False` with the meeting
details if either update returns `False`), then send both notifications
(their boolean results are ignored) and return `success=True`.  An
awaited activity that fails terminally raises and fails the workflow.
The second component is the trace of invocations performed. -/
def MeetingSchedulerWorkflow.run (env : MSEnv) (input : MeetingSchedulerInput) :
    Except WfFailure MeetingSchedulerResponse × List MSEvent :=
  match env.findSlot with
  | .failure => (.error .activityFailed, [.findSlotCall])
  | .ok none =>
    (.ok ⟨false, none, "No available time slots found for both users"⟩,
     [.findSlotCall])
  | .ok (some optimal_slot) =>
    let scheduled_meeting : ScheduledMeeting :=
      ⟨input.meeting_id, optimal_slot, input.user1_id, input.user2_id,
       input.meeting_title, input.meeting_description, (0.95 : ℚ)⟩
    match env.updateUser1 with
    | .failure =>
      (.error .activityFailed,
       [.findSlotCall, .updateScheduleCall input.user1_id])
    | .ok user1_updated =>
      match env.updateUser2 with
      | .failure =>
        (.error .activityFailed,
         [.findSlotCall, .updateScheduleCall input.user1_id,
          .updateScheduleCall input.user2_id])
      | .ok user2_updated =>
        if !(user1_updated && user2_updated) then
          (.ok ⟨false, some scheduled_meeting, "Failed to update user schedules"⟩,
           [.findSlotCall, .updateScheduleCall input.user1_id,
            .updateScheduleCall input.user2_id])
        else
          match env.notifyUser1 with
          | .failure =>
            (.error .activityFailed,
             [.findSlotCall, .updateScheduleCall input.user1_id,
              .updateScheduleCall input.user2_id,
              .sendMeetingNotificationCall input.user1_id])
          | .ok _ =>
            match env.notifyUser2 with
            | .failure =>
              (.error .activityFailed,
               [.findSlotCall, .updateScheduleCall input.user1_id,
                .updateScheduleCall input.user2_id,
                .sendMeetingNotificationCall input.user1_id,
                .sendMeetingNotificationCall input.user2_id])
            | .ok _ =>
              (.ok ⟨true, some scheduled_meeting,
                    "Meeting '" ++ input.meeting_title ++
                      "' scheduled successfully for " ++ optimal_slot.date ++
                      " at " ++ optimal_slot.start_time⟩,
               [.findSlotCall, .updateScheduleCall input.user1_id,
                .updateScheduleCall input.user2_id,
                .sendMeetingNotificationCall input.user1_id,
                .sendMeetingNotificationCall input.user2_id])

/-! ## FocusLoop (`workflows/focus_loop.py`) -/

/-- `FocusBlockInfo` pydantic model. -/
structure FocusBlockInfo where
  block_id : String
  user_id : String
  date : String
  title : String
  description : String
  duration_minutes : Int
deriving DecidableEq

/-- `FocusLoopInput` pydantic model. -/
structure FocusLoopInput where
  block : FocusBlockInfo
deriving DecidableEq

/-- `BlockFeedback` pydantic model. -/
structure BlockFeedback where
  completed : Bool
  actual_duration_minutes : Int
  productivity_rating : Int
  notes : Option String
deriving DecidableEq

/-- `FocusLoopResponse` pydantic model. -/
structure FocusLoopResponse where
  success : Bool
  block_id : String
  message : String
deriving DecidableEq

/-- One step of `FocusLoopWorkflow.run`, recorded in the trace. -/
inductive FLEvent where
  | sendStartNotificationCall
  | timerSleep (minutes : Int)
  | sendEndNotificationCall
  | waitFeedbackTimedOut (timeout_minutes : Nat)
  | updateFeedbackCall (block_id user_id date : String) (feedback : BlockFeedback)
deriving DecidableEq

/-- Environment resolving `FocusLoopWorkflow.run`'s activity call sites
and its `submit_feedback` signal wait: `feedbackSignal = some fb` when a
`submit_feedback` signal carrying `fb` resolves the 10-minute
`wait_condition`, `none` when the wait times out. -/
structure FLEnv where
  startNotification : ActOutcome Bool
  endNotification : ActOutcome Bool
  feedbackSignal : Option BlockFeedback
  updateFeedback : ActOutcome Bool
deriving DecidableEq

/-- `FocusLoopWorkflow.run`: start notification, durable sleep for
`duration_minutes`, end notification, wait up to 10 minutes for a
`submit_feedback` signal — on timeout synthesize the default feedback
record — then store the feedback and return `success=True`. -/
def FocusLoopWorkflow.run (env : FLEnv) (input : FocusLoopInput) :
    Except WfFailure FocusLoopResponse × List FLEvent :=
  let block := input.block
  match env.startNotification with
  | .failure => (.error .activityFailed, [.sendStartNotificationCall])
  | .ok _ =>
    match env.endNotification with
    | .failure =>
      (.error .activityFailed,
       [.sendStartNotificationCall, .timerSleep block.duration_minutes,
        .sendEndNotificationCall])
    | .ok _ =>
      -- `wait_condition(..., timeout=timedelta(minutes=10))`: the except
      -- branch synthesizes the default feedback.
      let feedback : Option BlockFeedback :=
        match env.feedbackSignal with
        | some fb => some fb
        | none =>
          some ⟨true, block.duration_minutes, 3, some "No feedback provided"⟩
      let waitEvents : List FLEvent :=
        match env.feedbackSignal with
        | some _ => []
        | none => [.waitFeedbackTimedOut 10]
      let preTrace : List FLEvent :=
        [.sendStartNotificationCall, .timerSleep block.duration_minutes,
         .sendEndNotificationCall] ++ waitEvents
      -- `if self._feedback:` — always truthy here, kept for fidelity.
      match feedback with
      | none =>
        (.ok ⟨true, block.block_id,
              "Focus block '" ++ block.title ++ "' completed successfully"⟩,
         preTrace)
      | some fb =>
        match env.updateFeedback with
        | .failure =>
          (.error .activityFailed,
           preTrace ++ [.updateFeedbackCall block.block_id block.user_id block.date fb])
        | .ok _ =>
          (.ok ⟨true, block.block_id,
                "Focus block '" ++ block.title ++ "' completed successfully"⟩,
           preTrace ++ [.updateFeedbackCall block.block_id block.user_id block.date fb])

/-! ## MorningCheck (`workflows/morning_check.py`) -/

/-- A JSON-ish scalar, for the `Dict[str, Any]` routine entries of the
mock plan (string and integer values occur in the source). -/
inductive PyVal where
  | str (s : String)
  | int (n : Int)
deriving DecidableEq

/-- A `Dict[str, Any]` value, as an ordered association list. -/
abbrev PyDict := List (String × PyVal)

/-- `MorningCheckInput` pydantic model. -/
structure MorningCheckInput where
  user_id : String
  date : String
  morning_reflection : String
  energy_level : Int
  priorities : List String
deriving DecidableEq

/-- `FocusBlock` pydantic model (morning-check module). -/
structure FocusBlock where
  block_id : String
  title : String
  description : String
  start_time : String
  end_time : String
  duration_minutes : Int
deriving DecidableEq

/-- `DailyPlan` pydantic model. -/
structure DailyPlan where
  focus_blocks : List FocusBlock
  routines : List PyDict
  micro_tips : List String
deriving DecidableEq

/-- `MorningCheckResponse` pydantic model. -/
structure MorningCheckResponse where
  success : Bool
  plan : DailyPlan
  message : String
deriving DecidableEq

/-- Environment resolving `MorningCheckWorkflow.run`'s two activity call
sites, in program order. -/
structure MCEnv where
  generatePlan : ActOutcome DailyPlan
  storePlan : ActOutcome Bool
deriving DecidableEq

/-- `MorningCheckWorkflow.run`: generate the AI plan, store it, and
return the plan with `success` equal to the store activity's boolean. -/
def MorningCheckWorkflow.run (env : MCEnv) (input : MorningCheckInput) :
    Except WfFailure MorningCheckResponse := do
  let plan ← execAct env.generatePlan
  let stored ← execAct env.storePlan
  pure ⟨stored, plan,
        "Morning check completed and plan generated successfully"⟩

/-! ## DailyReflection (`workflows/daily_reflection.py`) -/

/-- `DailyReflectionInput` pydantic model. -/
structure DailyReflectionInput where
  user_id : String
  date : String
  reflection_text : String
  completed_blocks : Int
  total_blocks : Int
  overall_productivity : Int
  wins : List String
  challenges : List String
deriving DecidableEq

/-- `AISummary` pydantic model. -/
structure AISummary where
  summary : String
  key_insights : List String
  micro_tips : List String
  suggested_improvements : List String
deriving DecidableEq

/-- `DailyReflectionResponse` pydantic model. -/
structure DailyReflectionResponse where
  success : Bool
  ai_summary : AISummary
  message : String
deriving DecidableEq

/-- Environment resolving `DailyReflectionWorkflow.run`'s three activity
call sites, in program order (`sendNotification` is the `retry×2`
notification activity). -/
structure DREnv where
  generateSummary : ActOutcome AISummary
  saveReflection : ActOutcome Bool
  sendNotification : ActOutcome Bool
deriving DecidableEq

/-- `DailyReflectionWorkflow.run`: generate the AI summary, save the
reflection, send the notification (its boolean result is ignored and it
is awaited with no surrounding try/except), and return the summary with
`success` equal to the save activity's boolean. -/
def DailyReflectionWorkflow.run (env : DREnv) (input : DailyReflectionInput) :
    Except WfFailure DailyReflectionResponse := do
  let ai_summary ← execAct env.generateSummary
  let saved ← execAct env.saveReflection
  let _ ← execAct env.sendNotification
  pure ⟨saved, ai_summary,
        "Daily reflection completed and insights generated successfully"⟩

/-! ## WeeklyGrowth (`workflows/weekly_growth.py`) -/

/-- `WeeklyStats` pydantic model (float fields modelled as rationals). -/
structure WeeklyStats where
  total_blocks_completed : Int
  total_blocks_planned : Int
  average_productivity : ℚ
  total_focus_hours : ℚ
  top_achievements : List String
  recurring_challenges : List String
  completion_rate : ℚ
deriving DecidableEq

/-- `MicroGoal` pydantic model. -/
structure MicroGoal where
  goal_id : String
  title : String
  description : String
  rationale : String
  suggested_actions : List String
  difficulty : Int
deriving DecidableEq

/-- `WeeklyGrowthInput` pydantic model. -/
structure WeeklyGrowthInput where
  user_id : String
  week_start : String
  week_end : String
deriving DecidableEq

/-- `WeeklyGrowthResponse` pydantic model. -/
structure WeeklyGrowthResponse where
  success : Bool
  weekly_stats : WeeklyStats
  micro_goals : List MicroGoal
  selected_goal : Option MicroGoal
  message : String
deriving DecidableEq

/-- The `select_goal` signal handler's scan: `for goal in goals: if
goal.goal_id == goal_id: ... break` over the goal list *carried by the
signal*, returning the matched goal if any. -/
def selectGoalHandler (goal_id : String) (goals : List MicroGoal) :
    Option MicroGoal :=
  goals.find? fun goal => goal.goal_id == goal_id

/-- Effect of a sequence of `select_goal` signals delivered during the
wait window: the handler runs per signal and the `wait_condition`
resolves at the first signal whose `goal_id` matches its own payload
goal list; signals with no match leave the state unchanged. -/
def processSelectGoalSignals : List (String × List MicroGoal) → Option MicroGoal
  | [] => none
  | (goal_id, goals) :: rest =>
    match selectGoalHandler goal_id goals with
    | some goal => some goal
    | none => processSelectGoalSignals rest

/-- Environment resolving `WeeklyGrowthWorkflow.run`'s activity call
sites and its `select_goal` signal wait: `signals` are the signal
payloads `(goal_id, goals)` delivered inside the 24-hour wait window,
in order; an empty or match-free list means the wait times out. -/
structure WGEnv where
  aggregate : ActOutcome WeeklyStats
  generateGoals : ActOutcome (List MicroGoal)
  signals : List (String × List MicroGoal)
  saveSummary : ActOutcome Bool
deriving DecidableEq

/-- `WeeklyGrowthWorkflow.run`: aggregate the week's data, generate
micro-goals, wait up to 24 hours for a `select_goal` signal — on
timeout default to `micro_goals[0] if micro_goals else None` — then
save the summary and return stats, goals and the selected goal with
`success` equal to the save activity's boolean. -/
def WeeklyGrowthWorkflow.run (env : WGEnv) (input : WeeklyGrowthInput) :
    Except WfFailure WeeklyGrowthResponse := do
  let stats ← execAct env.aggregate
  let micro_goals ← execAct env.generateGoals
  let selected : Option MicroGoal :=
    match processSelectGoalSignals env.signals with
    | some goal => some goal
    | none => micro_goals.head?
  let saved ← execAct env.saveSummary
  pure ⟨saved, stats, micro_goals, selected,
        "Weekly growth review completed successfully"⟩

/-! ## Durable engine client facade (idempotent start)

The workflows are started through `temporal_client.start_workflow` (the
`temporal_client` package and the Temporal engine behind it are not part
of `src/`; the routes in `routes/base.py` only call it with a
deterministic `workflow_id`). -/

/-- Workflow instance status (spec §3). -/
inductive WfStatus where
  | Running
  | Completed
  | Failed
  | TimedOut
  | Cancelled
deriving DecidableEq

/-- Modelled from the spec: a `WorkflowInstance` record of the durable
engine (spec §3) — type, a per-instance run identifier, status, the
append-only history, and the start input.  The engine implementation is
missing from `src/`. -/
structure WfInstanceRec where
  wfType : String
  runId : Nat
  status : WfStatus
  history : List String
  templateInput : String
deriving DecidableEq

/-- A client handle to a workflow instance. -/
structure WfHandle where
  workflow_id : String
  run_id : Nat
deriving DecidableEq

/-- Modelled from the spec: the engine's instance store — instances
keyed by `instanceId` plus a fresh-run-id counter. -/
structure EngineState where
  instances : List (String × WfInstanceRec)
  nextRun : Nat
deriving DecidableEq

/-- Modelled from the spec: `startWorkflow(type, input, instanceId) →
handle` of the client facade (spec §4.7), idempotent per `instanceId`
(spec §3 invariant): when an instance with this id is already `Running`
the existing handle is returned and the state (histories included) is
untouched; otherwise a fresh `Running` instance with empty history is
created (conditional create-if-absent write, spec §6).  The engine
implementation (`temporal_client`) is missing from `src/`. -/
def startWorkflow (s : EngineState) (wfType templateInput instanceId : String) :
    WfHandle × EngineState :=
  match s.instances.find? fun p =>
      p.1 == instanceId && p.2.status == WfStatus.Running with
  | some p => (⟨instanceId, p.2.runId⟩, s)
  | none =>
    (⟨instanceId, s.nextRun⟩,
     ⟨(instanceId, ⟨wfType, s.nextRun, WfStatus.Running, [], templateInput⟩)
        :: s.instances,
      s.nextRun + 1⟩)

/-! ## Sample values used by the witness theorems -/

def twA : TimeWindow := ⟨"09:00", "10:00", "2024-01-01"⟩

def twB : TimeWindow := ⟨"09:30", "10:30", "2024-01-01"⟩

def twC : TimeWindow := ⟨"11:00", "12:00", "2024-01-01"⟩

def msInW : MeetingSchedulerInput :=
  ⟨"m1", "alice", "bob", [twA], [twB], 30, "Sync", none⟩

def flInW : FocusLoopInput :=
  ⟨⟨"block-7", "alice", "2024-01-02", "Deep Work", "desc", 25⟩⟩

def planW : DailyPlan :=
  ⟨[⟨"block-1", "Deep Work Session", "d", "09:00", "11:00", 120⟩],
   [[("name", PyVal.str "Morning Stretch"), ("time", PyVal.str "08:45"),
     ("duration", PyVal.int 15)]],
   ["Take regular breaks"]⟩

def mcInW : MorningCheckInput := ⟨"alice", "2024-01-02", "ready", 3, ["p1"]⟩

def sumW : AISummary := ⟨"summary", ["i1"], ["t1"], ["s1"]⟩

def drInW : DailyReflectionInput :=
  ⟨"alice", "2024-01-02", "good day", 2, 3, 4, ["w1"], ["c1"]⟩

def wgStatsW : WeeklyStats := ⟨24, 30, 0, 0, [], [], 0⟩

def wgInW : WeeklyGrowthInput := ⟨"alice", "2024-01-01", "2024-01-07"⟩

def goalOneW : MicroGoal :=
  ⟨"goal-1", "Increase Focus Block Completion", "d", "r", [], 2⟩

def goalForeignW : MicroGoal :=
  ⟨"goal-x", "Externally supplied goal", "d", "r", [], 1⟩

/-! ## Claims -/

/-- C1: `find_optimal_slot_activity` returns the first pair of windows
in iteration order (outer loop over user1's windows, inner loop over
user2's windows) that shares a date and satisfies
`start1 ≤ end2 ∧ start2 ≤ end1`, as the window
`[max(start1,start2), min(end1,end2)]` on that date; on the spec's
example it returns `[09:30,10:00]` on `2024-01-01`; when no pair
overlaps it returns no slot. -/
theorem findOptimalSlot_first_overlap_in_iteration_order :
    (∀ (ws1 ws2 : List TimeWindow) (d : Int),
        find_optimal_slot_activity ws1 ws2 d =
          (firstOverlapPair ws1 ws2).map fun p => overlapSlot p.1 p.2)
    ∧ find_optimal_slot_activity
        [⟨"09:00", "10:00", "2024-01-01"⟩] [⟨"09:30", "10:30", "2024-01-01"⟩] 60 =
        some ⟨"09:30", "10:00", "2024-01-01"⟩
    ∧ (∀ (ws1 ws2 : List TimeWindow) (d : Int),
        (∀ w1 ∈ ws1, ∀ w2 ∈ ws2, overlapB w1 w2 = false) →
        find_optimal_slot_activity ws1 ws2 d = none) := by
  refine ⟨fun ws1 ws2 d => find_optimal_slot_eq d ws1 ws2, by decide, ?_⟩
  intro ws1 ws2 d h
  have hnone : firstOverlapPair ws1 ws2 = none := by
    unfold firstOverlapPair
    rw [List.find?_eq_none]
    intro p hp
    rw [List.mem_flatMap] at hp
    obtain ⟨w1, hw1, hp2⟩ := hp
    rw [List.mem_map] at hp2
    obtain ⟨w2, hw2, rfl⟩ := hp2
    simp [h w1 hw1 w2 hw2]
  rw [find_optimal_slot_eq d ws1 ws2, hnone, Option.map_none']

/-- Witness for C1: the overlap example evaluates as claimed, and on
disjoint same-date windows no slot is returned. -/
theorem findOptimalSlot_first_overlap_in_iteration_order_witness :
    find_optimal_slot_activity [twA] [twB] 60 =
      some ⟨"09:30", "10:00", "2024-01-01"⟩ ∧
    find_optimal_slot_activity [twA] [twC] 30 = none :=
  ⟨findOptimalSlot_first_overlap_in_iteration_order.2.1,
   findOptimalSlot_first_overlap_in_iteration_order.2.2 [twA] [twC] 30 (by decide)⟩

/-- C2: starting a workflow a second time with the same instance id
while an instance with that id is `Running` returns the existing handle
and changes nothing — no duplicate instance, no duplicated history.
After any first `startWorkflow`, repeating it is the identity. -/
theorem startWorkflow_idempotent
    (s : EngineState) (wfType templateInput instanceId : String) :
    startWorkflow (startWorkflow s wfType templateInput instanceId).2
        wfType templateInput instanceId =
      startWorkflow s wfType templateInput instanceId := by
  unfold startWorkflow
  cases h : s.instances.find? fun p =>
      p.1 == instanceId && p.2.status == WfStatus.Running with
  | some p => simp [h]
  | none => simp [h, List.find?]

/-- C3: when no `submit_feedback` signal resolves the 10-minute wait,
`FocusLoopWorkflow.run` proceeds (does not fail) and the default
feedback record `{completed: true, actual_duration_minutes:
block.duration_minutes, productivity_rating: 3, notes: "No feedback
provided"}` is the one passed to the `updateFeedback` activity. -/
theorem focusLoop_feedback_timeout_uses_default
    (env : FLEnv) (input : FocusLoopInput) (b1 b2 ub : Bool)
    (h1 : env.startNotification = .ok b1)
    (h2 : env.endNotification = .ok b2)
    (hs : env.feedbackSignal = none)
    (h3 : env.updateFeedback = .ok ub) :
    (FocusLoopWorkflow.run env input).1 =
      .ok ⟨true, input.block.block_id,
           "Focus block '" ++ input.block.title ++ "' completed successfully"⟩ ∧
    FLEvent.updateFeedbackCall input.block.block_id input.block.user_id
        input.block.date
        ⟨true, input.block.duration_minutes, 3, some "No feedback provided"⟩
      ∈ (FocusLoopWorkflow.run env input).2 := by
  constructor <;> simp [FocusLoopWorkflow.run, h1, h2, hs, h3]

/-- Witness for C3 at a concrete block and environment. -/
theorem focusLoop_feedback_timeout_uses_default_witness :
    (FocusLoopWorkflow.run ⟨.ok true, .ok true, none, .ok true⟩ flInW).1 =
      .ok ⟨true, flInW.block.block_id,
           "Focus block '" ++ flInW.block.title ++ "' completed successfully"⟩ ∧
    FLEvent.updateFeedbackCall flInW.block.block_id flInW.block.user_id
        flInW.block.date ⟨true, flInW.block.duration_minutes, 3, some "No feedback provided"⟩
      ∈ (FocusLoopWorkflow.run ⟨.ok true, .ok true, none, .ok true⟩ flInW).2 :=
  focusLoop_feedback_timeout_uses_default
    ⟨.ok true, .ok true, none, .ok true⟩ flInW true true true rfl rfl rfl rfl

/-- Counterexample to C4 as stated: a terminal failure (retries
exhausted) of DailyReflection's best-effort `sendNotification`
activity, which is awaited with no surrounding try/except, fails the
workflow instead of letting it return its normal terminal result. -/
theorem notification_terminal_failure_fails_workflow :
    DailyReflectionWorkflow.run ⟨.ok sumW, .ok true, .failure⟩ drInW =
      .error .activityFailed := rfl

/-- C4 (amended): whenever a best-effort notification activity
*completes* — returning either boolean — its result never affects the
enclosing workflow: DailyReflection and MeetingScheduler return their
normal terminal results regardless of the notification booleans.  (A
terminal activity failure after retries, by contrast, propagates and
fails the workflow, as the counterexample shows.) -/
theorem notification_result_never_affects_workflow_result :
    (∀ (env : DREnv) (input : DailyReflectionInput) (s : AISummary) (b nb : Bool),
        env.generateSummary = .ok s → env.saveReflection = .ok b →
        env.sendNotification = .ok nb →
        DailyReflectionWorkflow.run env input =
          .ok ⟨b, s, "Daily reflection completed and insights generated successfully"⟩)
    ∧ (∀ (env : MSEnv) (input : MeetingSchedulerInput) (slot : TimeWindow) (n1 n2 : Bool),
        env.findSlot = .ok (some slot) → env.updateUser1 = .ok true →
        env.updateUser2 = .ok true → env.notifyUser1 = .ok n1 →
        env.notifyUser2 = .ok n2 →
        (MeetingSchedulerWorkflow.run env input).1 =
          .ok ⟨true,
               some ⟨input.meeting_id, slot, input.user1_id, input.user2_id,
                     input.meeting_title, input.meeting_description, (0.95 : ℚ)⟩,
               "Meeting '" ++ input.meeting_title ++
                 "' scheduled successfully for " ++ slot.date ++
                 " at " ++ slot.start_time⟩) := by
  constructor
  · intro env input s b nb hg hs hn
    simp only [DailyReflectionWorkflow.run, execAct, hg, hs, hn]
    rfl
  · intro env input slot n1 n2 hf h1 h2 hn1 hn2
    simp [MeetingSchedulerWorkflow.run, hf, h1, h2, hn1, hn2]

/-- Witness for the amended C4: both workflows at concrete inputs, with
the notification activities returning `false`. -/
theorem notification_result_never_affects_workflow_result_witness :
    DailyReflectionWorkflow.run ⟨.ok sumW, .ok true, .ok false⟩ drInW =
      .ok ⟨true, sumW, "Daily reflection completed and insights generated successfully"⟩ ∧
    (MeetingSchedulerWorkflow.run
        ⟨.ok (some twB), .ok true, .ok true, .ok false, .ok false⟩ msInW).1 =
      .ok ⟨true, some ⟨msInW.meeting_id, twB, msInW.user1_id, msInW.user2_id,
                       msInW.meeting_title, msInW.meeting_description, (0.95 : ℚ)⟩,
           "Meeting '" ++ msInW.meeting_title ++ "' scheduled successfully for " ++
             twB.date ++ " at " ++ twB.start_time⟩ :=
  ⟨notification_result_never_affects_workflow_result.1
      ⟨.ok sumW, .ok true, .ok false⟩ drInW sumW true false rfl rfl rfl,
   notification_result_never_affects_workflow_result.2
      ⟨.ok (some twB), .ok true, .ok true, .ok false, .ok false⟩ msInW twB
      false false rfl rfl rfl rfl rfl⟩

/-- C5: on completing runs, MorningCheck's terminal `success` equals the
boolean returned by the `storePlan` activity and carries the generated
plan; DailyReflection's terminal `success` equals the boolean returned
by the `saveReflection` activity and carries the generated summary. -/
theorem terminal_success_flag_equals_store_outcome :
    (∀ (env : MCEnv) (input : MorningCheckInput) (plan : DailyPlan) (b : Bool),
        env.generatePlan = .ok plan → env.storePlan = .ok b →
        MorningCheckWorkflow.run env input =
          .ok ⟨b, plan, "Morning check completed and plan generated successfully"⟩)
    ∧ (∀ (env : DREnv) (input : DailyReflectionInput) (s : AISummary) (b nb : Bool),
        env.generateSummary = .ok s → env.saveReflection = .ok b →
        env.sendNotification = .ok nb →
        DailyReflectionWorkflow.run env input =
          .ok ⟨b, s, "Daily reflection completed and insights generated successfully"⟩) := by
  constructor
  · intro env input plan b hg hs
    simp only [MorningCheckWorkflow.run, execAct, hg, hs]
    rfl
  · intro env input s b nb hg hs hn
    simp only [DailyReflectionWorkflow.run, execAct, hg, hs, hn]
    rfl

/-- Witness for C5 with failed stores: both workflows complete with
`success = false` and still carry the generated plan and summary. -/
theorem terminal_success_flag_equals_store_outcome_witness :
    MorningCheckWorkflow.run ⟨.ok planW, .ok false⟩ mcInW =
      .ok ⟨false, planW, "Morning check completed and plan generated successfully"⟩ ∧
    DailyReflectionWorkflow.run ⟨.ok sumW, .ok false, .ok true⟩ drInW =
      .ok ⟨false, sumW, "Daily reflection completed and insights generated successfully"⟩ :=
  ⟨terminal_success_flag_equals_store_outcome.1
      ⟨.ok planW, .ok false⟩ mcInW planW false rfl rfl,
   terminal_success_flag_equals_store_outcome.2
      ⟨.ok sumW, .ok false, .ok true⟩ drInW sumW false true rfl rfl rfl⟩

/-- C6: when no `select_goal` signal sets a selection inside the
24-hour wait, the selected goal defaults to the first generated
micro-goal (`micro_goals[0] if micro_goals else None`), and the
terminal result carries it. -/
theorem weeklyGrowth_goal_default_first_generated
    (env : WGEnv) (input : WeeklyGrowthInput) (stats : WeeklyStats)
    (goals : List MicroGoal) (b : Bool)
    (ha : env.aggregate = .ok stats)
    (hg : env.generateGoals = .ok goals)
    (hs : processSelectGoalSignals env.signals = none)
    (hv : env.saveSummary = .ok b) :
    WeeklyGrowthWorkflow.run env input =
      .ok ⟨b, stats, goals, goals.head?,
           "Weekly growth review completed successfully"⟩ := by
  simp only [WeeklyGrowthWorkflow.run, execAct, ha, hg, hs, hv]
  rfl

/-- Witness for C6: with no signal and one generated goal, the terminal
result selects that first goal. -/
theorem weeklyGrowth_goal_default_first_generated_witness :
    WeeklyGrowthWorkflow.run ⟨.ok wgStatsW, .ok [goalOneW], [], .ok true⟩ wgInW =
      .ok ⟨true, wgStatsW, [goalOneW], some goalOneW,
           "Weekly growth review completed successfully"⟩ :=
  weeklyGrowth_goal_default_first_generated
    ⟨.ok wgStatsW, .ok [goalOneW], [], .ok true⟩ wgInW wgStatsW [goalOneW] true
    rfl rfl rfl rfl

/-- Counterexample to C7 as stated: the `select_goal` handler matches
the signaled goalId against the goal list carried in the *signal
payload*, not against the goals generated by this instance's
`generateMicroGoals` activity — a signal carrying a foreign goal list
makes a goal that was never generated the selected one. -/
theorem selectGoal_matches_signal_payload_not_generated :
    WeeklyGrowthWorkflow.run
        ⟨.ok wgStatsW, .ok [goalOneW], [("goal-x", [goalForeignW])], .ok true⟩
        wgInW =
      .ok ⟨true, wgStatsW, [goalOneW], some goalForeignW,
           "Weekly growth review completed successfully"⟩ ∧
    goalForeignW ∉ [goalOneW] := by
  constructor
  · rfl
  · decide

/-- C7 (amended): when a `select_goal` signal arrives during the
24-hour wait carrying a goalId and a goal list, the goalId is matched
against the goal list carried in the signal payload (the caller is
expected to pass the generated goals), and on a match that payload goal
becomes the terminal result's selected goal. -/
theorem selectGoal_signal_payload_match_selected
    (env : WGEnv) (input : WeeklyGrowthInput) (stats : WeeklyStats)
    (goals sgoals : List MicroGoal) (goal_id : String) (g : MicroGoal) (b : Bool)
    (ha : env.aggregate = .ok stats)
    (hg : env.generateGoals = .ok goals)
    (hsig : env.signals = [(goal_id, sgoals)])
    (hm : selectGoalHandler goal_id sgoals = some g)
    (hv : env.saveSummary = .ok b) :
    WeeklyGrowthWorkflow.run env input =
      .ok ⟨b, stats, goals, some g,
           "Weekly growth review completed successfully"⟩ := by
  simp only [WeeklyGrowthWorkflow.run, execAct, ha, hg, hsig, hv,
             processSelectGoalSignals, hm]
  rfl

/-- Witness for the amended C7: the signal carries the generated list
and a matching goalId, and the matched goal is selected. -/
theorem selectGoal_signal_payload_match_selected_witness :
    WeeklyGrowthWorkflow.run
        ⟨.ok wgStatsW, .ok [goalOneW], [("goal-1", [goalOneW])], .ok true⟩ wgInW =
      .ok ⟨true, wgStatsW, [goalOneW], some goalOneW,
           "Weekly growth review completed successfully"⟩ :=
  selectGoal_signal_payload_match_selected
    ⟨.ok wgStatsW, .ok [goalOneW], [("goal-1", [goalOneW])], .ok true⟩ wgInW
    wgStatsW [goalOneW] [goalOneW] "goal-1" goalOneW true
    rfl rfl rfl (by decide) rfl

/-- C8: when `findOptimalSlot` returns no slot, MeetingScheduler
terminates with `success=false` and no scheduled meeting, its trace is
the single `findSlot` invocation, and in particular neither user's
schedule is updated and no notification activity is invoked. -/
theorem meetingScheduler_no_slot_stops
    (env : MSEnv) (input : MeetingSchedulerInput)
    (h : env.findSlot = .ok none) :
    (MeetingSchedulerWorkflow.run env input).1 =
      .ok ⟨false, none, "No available time slots found for both users"⟩ ∧
    (MeetingSchedulerWorkflow.run env input).2 = [.findSlotCall] ∧
    (∀ u, MSEvent.updateScheduleCall u ∉ (MeetingSchedulerWorkflow.run env input).2) ∧
    (∀ u, MSEvent.sendMeetingNotificationCall u ∉
        (MeetingSchedulerWorkflow.run env input).2) := by
  refine ⟨?_, ?_, ?_, ?_⟩ <;> simp [MeetingSchedulerWorkflow.run, h]

/-- Witness for C8: disjoint same-date windows, so the embedded
`find_optimal_slot_activity` itself computes `none`. -/
theorem meetingScheduler_no_slot_stops_witness :
    (MeetingSchedulerWorkflow.run
        ⟨.ok (find_optimal_slot_activity [twA] [twC] 30),
         .ok true, .ok true, .ok true, .ok true⟩
        ⟨"m2", "alice", "bob", [twA], [twC], 30, "Sync", none⟩).1 =
      .ok ⟨false, none, "No available time slots found for both users"⟩ ∧
    (MeetingSchedulerWorkflow.run
        ⟨.ok (find_optimal_slot_activity [twA] [twC] 30),
         .ok true, .ok true, .ok true, .ok true⟩
        ⟨"m2", "alice", "bob", [twA], [twC], 30, "Sync", none⟩).2 =
      [.findSlotCall] := by
  have h := meetingScheduler_no_slot_stops
    ⟨.ok (find_optimal_slot_activity [twA] [twC] 30),
     .ok true, .ok true, .ok true, .ok true⟩
    ⟨"m2", "alice", "bob", [twA], [twC], 30, "Sync", none⟩ (by decide)
  exact ⟨h.1, h.2.1⟩

/-- C9: when a slot is found but at least one `updateSchedule` call
returns `false`, MeetingScheduler terminates with `success=false` while
`scheduled_meeting` still carries the computed details (meeting id,
overlap slot, both user ids, title), and no notification activity
runs. -/
theorem meetingScheduler_update_failure_returns_details
    (env : MSEnv) (input : MeetingSchedulerInput) (slot : TimeWindow)
    (u1 u2 : Bool)
    (hf : env.findSlot = .ok (some slot))
    (h1 : env.updateUser1 = .ok u1)
    (h2 : env.updateUser2 = .ok u2)
    (hu : (u1 && u2) = false) :
    (MeetingSchedulerWorkflow.run env input).1 =
      .ok ⟨false,
           some ⟨input.meeting_id, slot, input.user1_id, input.user2_id,
                 input.meeting_title, input.meeting_description, (0.95 : ℚ)⟩,
           "Failed to update user schedules"⟩ ∧
    (∀ u, MSEvent.sendMeetingNotificationCall u ∉
        (MeetingSchedulerWorkflow.run env input).2) := by
  constructor <;> simp [MeetingSchedulerWorkflow.run, hf, h1, h2, hu]

/-- Witness for C9: the second update returns `false`. -/
theorem meetingScheduler_update_failure_returns_details_witness :
    (MeetingSchedulerWorkflow.run
        ⟨.ok (some twB), .ok true, .ok false, .ok true, .ok true⟩ msInW).1 =
      .ok ⟨false,
           some ⟨msInW.meeting_id, twB, msInW.user1_id, msInW.user2_id,
                 msInW.meeting_title, msInW.meeting_description, (0.95 : ℚ)⟩,
           "Failed to update user schedules"⟩ :=
  (meetingScheduler_update_failure_returns_details
    ⟨.ok (some twB), .ok true, .ok false, .ok true, .ok true⟩ msInW twB
    true false rfl rfl rfl rfl).1

/-- C10: whenever FocusLoop runs to completion, its terminal response
has `success = true` and `block_id` equal to the input block's id,
whatever booleans the start/end notification and `updateFeedback`
activities return and whether or not a feedback signal arrived. -/
theorem focusLoop_terminal_success_unconditional
    (env : FLEnv) (input : FocusLoopInput) (b1 b2 ub : Bool)
    (h1 : env.startNotification = .ok b1)
    (h2 : env.endNotification = .ok b2)
    (h3 : env.updateFeedback = .ok ub) :
    (FocusLoopWorkflow.run env input).1 =
      .ok ⟨true, input.block.block_id,
           "Focus block '" ++ input.block.title ++ "' completed successfully"⟩ := by
  cases hfs : env.feedbackSignal with
  | none => simp [FocusLoopWorkflow.run, h1, h2, h3, hfs]
  | some fb => simp [FocusLoopWorkflow.run, h1, h2, h3, hfs]

/-- Witness for C10: every activity returns `false`, feedback arrives
with `completed = false`, yet the response is `success = true` with the
block's id. -/
theorem focusLoop_terminal_success_unconditional_witness :
    (FocusLoopWorkflow.run
        ⟨.ok false, .ok false, some ⟨false, 10, 1, none⟩, .ok false⟩ flInW).1 =
      .ok ⟨true, flInW.block.block_id,
           "Focus block '" ++ flInW.block.title ++ "' completed successfully"⟩ :=
  focusLoop_terminal_success_unconditional
    ⟨.ok false, .ok false, some ⟨false, 10, 1, none⟩, .ok false⟩ flInW
    false false false rfl rfl rfl
